import Mathlib

/-
  Verification development for the repository angular-core-concepts.

  The repository consists of a README (documentation prose with code examples)
  and two small TypeScript source files:
    - src/examples/lifecycle-hooks-demo/src/app/hello/hello.component.ts
    - src/examples/lifecycle-hooks-demo/src/app/app.component.ts
  This file gives a shallow embedding of those two components and of the
  error-relevant content of the README, and proves the behavioural claims
  about them.
-/

namespace AngularCoreConcepts

/-- A console entry emitted by the code: console.log produces a log entry,
console.error produces an error entry. -/
inductive ConsoleEntry where
  | log (msg : String)
  | error (msg : String)
deriving DecidableEq, Repr

/-- Whether a console entry is a console.log entry (as opposed to console.error). -/
def ConsoleEntry.isLog : ConsoleEntry → Bool
  | .log _ => true
  | .error _ => false

/-- One record of the Angular SimpleChanges object: previous value, current
value, and the first-change flag. All input values in this repository are
strings, so values are modelled as strings. -/
structure SimpleChange where
  previousValue : String
  currentValue : String
  firstChange : Bool
deriving DecidableEq, Repr

/-- The SimpleChanges argument of ngOnChanges: a map from input property name
to its change record, modelled as an association list. -/
abbrev SimpleChanges := List (String × SimpleChange)

/-- String rendering of one SimpleChange record, as console.log would print it. -/
def SimpleChange.describe (c : SimpleChange) : String :=
  "SimpleChange(previousValue: " ++ c.previousValue ++
    ", currentValue: " ++ c.currentValue ++
    ", firstChange: " ++ (if c.firstChange then "true" else "false") ++ ")"

/-- String rendering of a whole SimpleChanges object, as console.log prints the
second argument of the ngOnChanges log call. -/
def showChanges (cs : SimpleChanges) : String :=
  String.intercalate ", " (cs.map fun p => p.1 ++ ": " ++ p.2.describe)

/-- The state of a HelloComponent instance. Its only field is the input
property `name` (hello.component.ts line 31). -/
structure HelloComponent where
  name : String
deriving DecidableEq, Repr

/-- A freshly constructed HelloComponent: the field initializer of the input is
the empty string (hello.component.ts line 31). -/
def HelloComponent.new : HelloComponent := { name := "" }

/-- ngOnChanges(changes) logs the changes object and does nothing else
(hello.component.ts lines 33-35). The result pairs the component state after
the call with the console entries it emitted. -/
def HelloComponent.ngOnChanges (c : HelloComponent) (changes : SimpleChanges) :
    HelloComponent × List ConsoleEntry :=
  (c, [.log ("ngOnChanges → Input changed: " ++ showChanges changes)])

/-- ngOnInit logs a fixed message (hello.component.ts lines 37-39). -/
def HelloComponent.ngOnInit (c : HelloComponent) : HelloComponent × List ConsoleEntry :=
  (c, [.log "ngOnInit → Component is ready!"])

/-- ngDoCheck logs a fixed message (hello.component.ts lines 41-43). -/
def HelloComponent.ngDoCheck (c : HelloComponent) : HelloComponent × List ConsoleEntry :=
  (c, [.log "ngDoCheck → Change detection running"])

/-- ngAfterContentInit logs a fixed message (hello.component.ts lines 45-47). -/
def HelloComponent.ngAfterContentInit (c : HelloComponent) : HelloComponent × List ConsoleEntry :=
  (c, [.log "ngAfterContentInit → Content projected"])

/-- ngAfterContentChecked logs a fixed message (hello.component.ts lines 49-51). -/
def HelloComponent.ngAfterContentChecked (c : HelloComponent) : HelloComponent × List ConsoleEntry :=
  (c, [.log "ngAfterContentChecked → Content checked"])

/-- ngAfterViewInit logs a fixed message (hello.component.ts lines 53-55). -/
def HelloComponent.ngAfterViewInit (c : HelloComponent) : HelloComponent × List ConsoleEntry :=
  (c, [.log "ngAfterViewInit → View initialized"])

/-- ngAfterViewChecked logs a fixed message (hello.component.ts lines 57-59). -/
def HelloComponent.ngAfterViewChecked (c : HelloComponent) : HelloComponent × List ConsoleEntry :=
  (c, [.log "ngAfterViewChecked → View checked"])

/-- ngOnDestroy logs a fixed message (hello.component.ts lines 61-63). -/
def HelloComponent.ngOnDestroy (c : HelloComponent) : HelloComponent × List ConsoleEntry :=
  (c, [.log "ngOnDestroy → Component is destroyed!"])

/-- The eight lifecycle hooks HelloComponent implements. -/
inductive Hook where
  | onChanges
  | onInit
  | doCheck
  | afterContentInit
  | afterContentChecked
  | afterViewInit
  | afterViewChecked
  | onDestroy
deriving DecidableEq, Repr

/-- Dispatch an invocation of a lifecycle hook on a HelloComponent. Only
ngOnChanges receives the SimpleChanges argument; the other hooks take no
arguments and ignore it. -/
def invoke : Hook → HelloComponent → SimpleChanges → HelloComponent × List ConsoleEntry
  | .onChanges, c, ch => c.ngOnChanges ch
  | .onInit, c, _ => c.ngOnInit
  | .doCheck, c, _ => c.ngDoCheck
  | .afterContentInit, c, _ => c.ngAfterContentInit
  | .afterContentChecked, c, _ => c.ngAfterContentChecked
  | .afterViewInit, c, _ => c.ngAfterViewInit
  | .afterViewChecked, c, _ => c.ngAfterViewChecked
  | .onDestroy, c, _ => c.ngOnDestroy

/-- An inline template node: literal text or an interpolation of a component
field. -/
inductive InlineNode where
  | text (s : String)
  | interpolation (field : String)
deriving DecidableEq, Repr

/-- A template element: tag name, template reference variables, static
attribute bindings, and inline content. -/
structure Element where
  tag : String
  refVars : List String
  attrs : List (String × String)
  content : List InlineNode
deriving DecidableEq, Repr

/-- The template of HelloComponent (hello.component.ts line 18):
a p element with reference variable msg containing the text
Hello, an interpolation of the field name, and an exclamation mark. -/
def HelloComponent.template : Element :=
  { tag := "p"
  , refVars := ["msg"]
  , attrs := []
  , content := [.text "Hello ", .interpolation "name", .text "!"] }

/-- Resolve one inline node against a HelloComponent instance: text renders as
itself, an interpolation of the field name renders the name field. -/
def HelloComponent.renderInline (c : HelloComponent) : InlineNode → String
  | .text s => s
  | .interpolation f => if f = "name" then c.name else ""

/-- The text rendered by HelloComponent: its template content resolved against
the instance. -/
def HelloComponent.renderText (c : HelloComponent) : String :=
  String.join (HelloComponent.template.content.map c.renderInline)

/-- The state of the AppComponent instance. Its only field is `title`
(app.component.ts lines 9-11). -/
structure AppComponent where
  title : String
deriving DecidableEq, Repr

/-- A freshly constructed AppComponent: the field initializer of title is the
string lifecycle-hooks-demo (app.component.ts line 10). -/
def AppComponent.new : AppComponent := { title := "lifecycle-hooks-demo" }

/-- The template of AppComponent (app.component.ts line 7): a single app-hello
element whose name attribute is bound to the static string Angular. -/
def AppComponent.template : Element :=
  { tag := "app-hello"
  , refVars := []
  , attrs := [("name", "Angular")]
  , content := [] }

/-- Apply one static attribute binding to a HelloComponent: the name attribute
sets the name input; no other input exists on HelloComponent. -/
def applyInput (c : HelloComponent) (attr : String × String) : HelloComponent :=
  if attr.1 = "name" then { c with name := attr.2 } else c

/-- The HelloComponent child instance created by rendering the template of a
given AppComponent instance: a fresh HelloComponent with the static attribute
bindings of the app-hello element applied. -/
def instantiateChild (_a : AppComponent) : HelloComponent :=
  AppComponent.template.attrs.foldl applyInput HelloComponent.new

/-- The whole mutable state of the running program: the AppComponent instance
and the HelloComponent child it renders. There is no module-level variable in
either source file, so no further field exists. -/
structure ProgramState where
  app : AppComponent
  hello : HelloComponent
deriving DecidableEq, Repr

/-- The initial program state: a fresh AppComponent and the child its template
creates. -/
def initState : ProgramState :=
  { app := AppComponent.new, hello := instantiateChild AppComponent.new }

/-- Invoke a lifecycle hook of the child component within the whole program
state: only the child participates; the AppComponent defines no methods. -/
def invokeApp (h : Hook) (s : ProgramState) (ch : SimpleChanges) :
    ProgramState × List ConsoleEntry :=
  let r := invoke h s.hello ch
  ({ s with hello := r.1 }, r.2)

/-- Run a sequence of hook invocations from a program state, collecting the
console entries in order. -/
def runHistory : ProgramState → List (Hook × SimpleChanges) → ProgramState × List ConsoleEntry
  | s, [] => (s, [])
  | s, (h, ch) :: rest =>
    let step := invokeApp h s ch
    let tail := runHistory step.1 rest
    (tail.1, step.2 ++ tail.2)

/-- A location in the repository content where console.error is called. -/
structure ConsoleErrorSite where
  file : String
  line : Nat
deriving DecidableEq, Repr

/-- All console.error calls in the repository content. Scanning every file of
the repository finds exactly two, both inside documentation code examples in
the README: line 62 (the bootstrapApplication example) and line 655 (the
UserListComponent observable example). Neither TypeScript source file contains
any console.error, throw, or try/catch. -/
def consoleErrorSites : List ConsoleErrorSite :=
  [ { file := "README.md", line := 62 }
  , { file := "README.md", line := 655 } ]

/-- The error callback of the bootstrapApplication documentation example
(README.md line 62): it forwards the error to console.error. -/
def bootstrapCatchHandler (err : String) : ConsoleEntry :=
  .error err

/-- The error callback of the UserListComponent documentation example
(README.md line 655): it logs a message and the error via console.error. -/
def userListErrorHandler (err : String) : ConsoleEntry :=
  .error ("Error fetching users " ++ err)

/-- Every hook invocation leaves the component state unchanged. -/
theorem invoke_fst (h : Hook) (c : HelloComponent) (ch : SimpleChanges) :
    (invoke h c ch).1 = c := by
  cases h <;> rfl

/-- Every hook invocation emits exactly one console entry. -/
theorem invoke_snd_length (h : Hook) (c : HelloComponent) (ch : SimpleChanges) :
    (invoke h c ch).2.length = 1 := by
  cases h <;> rfl

/-- Every console entry a hook emits is a console.log entry. -/
theorem invoke_snd_isLog (h : Hook) (c : HelloComponent) (ch : SimpleChanges) :
    ((invoke h c ch).2.all ConsoleEntry.isLog) = true := by
  cases h <;> rfl

/-- Invoking a hook within the program state leaves the state unchanged. -/
theorem invokeApp_fst (h : Hook) (s : ProgramState) (ch : SimpleChanges) :
    (invokeApp h s ch).1 = s := by
  simp [invokeApp, invoke_fst]

/-- The console output of a hook invoked within the program state is the
output of the hook on the child component. -/
theorem invokeApp_snd (h : Hook) (s : ProgramState) (ch : SimpleChanges) :
    (invokeApp h s ch).2 = (invoke h s.hello ch).2 := rfl

/-- Running any history of hook invocations leaves the program state
unchanged. -/
theorem runHistory_fst (hist : List (Hook × SimpleChanges)) (s : ProgramState) :
    (runHistory s hist).1 = s := by
  induction hist generalizing s with
  | nil => rfl
  | cons p rest ih =>
    obtain ⟨h, ch⟩ := p
    simp [runHistory, ih, invokeApp_fst]

/-- Running a history of hook invocations emits exactly one console entry per
invocation. -/
theorem runHistory_snd_length (hist : List (Hook × SimpleChanges)) (s : ProgramState) :
    (runHistory s hist).2.length = hist.length := by
  induction hist generalizing s with
  | nil => rfl
  | cons p rest ih =>
    obtain ⟨h, ch⟩ := p
    simp [runHistory, ih, invokeApp_snd, invoke_snd_length]
    omega

/-- Every console entry emitted when running a history is a console.log entry. -/
theorem runHistory_snd_isLog (hist : List (Hook × SimpleChanges)) (s : ProgramState) :
    ((runHistory s hist).2.all ConsoleEntry.isLog) = true := by
  induction hist generalizing s with
  | nil => rfl
  | cons p rest ih =>
    obtain ⟨h, ch⟩ := p
    simp [runHistory, List.all_append, ih, invokeApp_snd, invoke_snd_isLog]

/-- C1: every invocation of each of the eight lifecycle hooks of HelloComponent
prints exactly one console log line (a console.log entry, never console.error)
and has no other effect: the resulting component state, in particular the name
field, is exactly the state before the call. -/
theorem c1_hooks_log_once_and_preserve_state
    (h : Hook) (c : HelloComponent) (ch : SimpleChanges) :
    (invoke h c ch).1 = c ∧
    (invoke h c ch).2.length = 1 ∧
    ((invoke h c ch).2.all ConsoleEntry.isLog) = true :=
  ⟨invoke_fst h c ch, invoke_snd_length h c ch, invoke_snd_isLog h c ch⟩

/-- C2 counterexample: the repository content does not contain exactly one
console.error call; scanning the repository finds two, at README.md line 62
and README.md line 655. -/
theorem c2_counterexample_two_console_errors :
    ¬ (consoleErrorSites.length = 1) := by
  decide

/-- C2 amended: the repository content contains exactly two console.error
calls, both in documentation examples in the README, and the lifecycle hooks
of HelloComponent emit only console.log entries, never console.error. -/
theorem c2_amended_console_error_sites :
    consoleErrorSites.length = 2 ∧
    (consoleErrorSites.all fun site => site.file == "README.md") = true ∧
    ∀ (h : Hook) (c : HelloComponent) (ch : SimpleChanges),
      ((invoke h c ch).2.all ConsoleEntry.isLog) = true :=
  ⟨by decide, by decide, fun h c ch => invoke_snd_isLog h c ch⟩

/-- C3: the only interaction between the two components is that AppComponent
declares an app-hello element binding the static string Angular to the name
input: the child instance created from the template does not depend on the
AppComponent instance, its name is Angular, and no hook invocation reads or
writes the AppComponent state. -/
theorem c3_only_interaction_is_template_binding :
    AppComponent.template.tag = "app-hello" ∧
    AppComponent.template.attrs = [("name", "Angular")] ∧
    (∀ a a' : AppComponent, instantiateChild a = instantiateChild a') ∧
    (∀ a : AppComponent, (instantiateChild a).name = "Angular") ∧
    (∀ (h : Hook) (s : ProgramState) (ch : SimpleChanges),
      (invokeApp h s ch).1.app = s.app) :=
  ⟨rfl, rfl, fun _ _ => rfl, fun _ => rfl, fun _ _ _ => rfl⟩

/-- C4: the lifecycle hooks form no state machine: after any two invocation
histories from the same starting state, invoking the same hook with the same
argument next produces the same console output and the same resulting state. -/
theorem c4_history_independence
    (s : ProgramState) (hist1 hist2 : List (Hook × SimpleChanges))
    (h : Hook) (ch : SimpleChanges) :
    invokeApp h (runHistory s hist1).1 ch = invokeApp h (runHistory s hist2).1 ch := by
  rw [runHistory_fst, runHistory_fst]

/-- C5: every lifecycle hook is total and unconstrained: every history of hook
invocations, in any order, runs to completion from any state with no
precondition, emits exactly one log entry per invocation, never emits an error
entry, and leaves the state unchanged. -/
theorem c5_hooks_total_no_order_invariant
    (s : ProgramState) (hist : List (Hook × SimpleChanges)) :
    (runHistory s hist).1 = s ∧
    (runHistory s hist).2.length = hist.length ∧
    ((runHistory s hist).2.all ConsoleEntry.isLog) = true :=
  ⟨runHistory_fst hist s, runHistory_snd_length hist s, runHistory_snd_isLog hist s⟩

/-- C6: every operation is deterministic: two runs of the same hook invocation,
or of the same invocation history, from the same program state with the same
arguments produce identical final states and identical console output. -/
theorem c6_operations_deterministic
    (h : Hook) (s1 s2 : ProgramState) (ch1 ch2 : SimpleChanges)
    (hist1 hist2 : List (Hook × SimpleChanges))
    (hs : s1 = s2) (hch : ch1 = ch2) (hh : hist1 = hist2) :
    invokeApp h s1 ch1 = invokeApp h s2 ch2 ∧
    runHistory s1 hist1 = runHistory s2 hist2 := by
  subst hs; subst hch; subst hh
  exact ⟨rfl, rfl⟩

/-- C6 witness: determinism at a concrete input: invoking ngOnInit twice from
the initial state gives identical results. -/
theorem c6_operations_deterministic_witness :
    invokeApp Hook.onInit initState [] = invokeApp Hook.onInit initState [] ∧
    runHistory initState [(Hook.onInit, [])] = runHistory initState [(Hook.onInit, [])] :=
  c6_operations_deterministic Hook.onInit initState initState [] []
    [(Hook.onInit, [])] [(Hook.onInit, [])] rfl rfl rfl

/-- C7: there is no global mutable state: the whole program state is exactly
the pair of the title field of AppComponent and the name field of
HelloComponent, and no operation modifies either field. -/
theorem c7_no_global_mutable_state :
    (∀ s : ProgramState,
      s = { app := { title := s.app.title }, hello := { name := s.hello.name } }) ∧
    (∀ (h : Hook) (s : ProgramState) (ch : SimpleChanges),
      (invokeApp h s ch).1.app.title = s.app.title ∧
      (invokeApp h s ch).1.hello.name = s.hello.name) :=
  ⟨fun _ => rfl,
   fun h s ch => ⟨rfl, by rw [invokeApp_fst]⟩⟩

/-- C8: ngOnChanges is the only hook whose console output depends on anything:
it logs the SimpleChanges argument it receives, its output genuinely varies
with that argument, and every other hook logs a fixed constant message
independent of the component state and of any argument. -/
theorem c8_only_ngOnChanges_output_depends
    (h : Hook) (hne : h ≠ Hook.onChanges) :
    (∀ (c : HelloComponent) (ch : SimpleChanges),
      (invoke Hook.onChanges c ch).2 =
        [ConsoleEntry.log ("ngOnChanges → Input changed: " ++ showChanges ch)]) ∧
    (∀ (c c' : HelloComponent) (ch ch' : SimpleChanges),
      (invoke h c ch).2 = (invoke h c' ch').2) ∧
    (∃ (c : HelloComponent) (ch ch' : SimpleChanges),
      (invoke Hook.onChanges c ch).2 ≠ (invoke Hook.onChanges c ch').2) := by
  refine ⟨fun c ch => rfl, ?_, ?_⟩
  · intro c c' ch ch'
    cases h with
    | onChanges => exact absurd rfl hne
    | onInit => rfl
    | doCheck => rfl
    | afterContentInit => rfl
    | afterContentChecked => rfl
    | afterViewInit => rfl
    | afterViewChecked => rfl
    | onDestroy => rfl
  · exact ⟨HelloComponent.new, [],
      [("name", { previousValue := "", currentValue := "Angular", firstChange := true })],
      by decide⟩

/-- C8 witness: instantiating the theorem at the hook ngOnInit, which is not
ngOnChanges: its output on two different states and arguments coincides. -/
theorem c8_only_ngOnChanges_output_depends_witness :
    (invoke Hook.onInit HelloComponent.new []).2 =
      (invoke Hook.onInit { name := "Angular" }
        [("name", { previousValue := "", currentValue := "Angular", firstChange := true })]).2 :=
  (c8_only_ngOnChanges_output_depends Hook.onInit (by decide)).2.1
    HelloComponent.new { name := "Angular" } []
    [("name", { previousValue := "", currentValue := "Angular", firstChange := true })]

/-- C9: the name input of HelloComponent defaults to the empty string: a
HelloComponent constructed without a name binding renders the text
Hello ! (with the empty name between the space and the exclamation mark),
and the child instantiated by AppComponent with its static binding renders
Hello Angular!. -/
theorem c9_default_name_and_render :
    HelloComponent.new.name = "" ∧
    HelloComponent.renderText HelloComponent.new = "Hello !" ∧
    ∀ a : AppComponent,
      HelloComponent.renderText (instantiateChild a) = "Hello Angular!" :=
  ⟨rfl, by decide, fun _ => rfl⟩

/-- C10: the title field of AppComponent is initialised to the string
lifecycle-hooks-demo, no operation ever modifies it, and it equals
lifecycle-hooks-demo in every state reachable from the initial state. -/
theorem c10_title_constant
    (h : Hook) (s : ProgramState) (ch : SimpleChanges)
    (hist : List (Hook × SimpleChanges)) :
    AppComponent.new.title = "lifecycle-hooks-demo" ∧
    (invokeApp h s ch).1.app.title = s.app.title ∧
    (runHistory initState hist).1.app.title = "lifecycle-hooks-demo" := by
  refine ⟨rfl, rfl, ?_⟩
  rw [runHistory_fst]
  rfl

end AngularCoreConcepts
